import Mathlib

/-
Verification of the ensemble inference engine of the ratemybeard repository,
embedded shallowly from src/api/beauty_ensemble.py.

Modelling choices:
* Python floats are embedded as exact rationals (ℚ); the claims under study
  are algebraic identities of the fusion rule, not rounding facts.
* The external effectful operations that `predict_beauty_ensemble` performs
  (loading a TFLite interpreter through the cached getters, preprocessing the
  image per model, running inference per model) are packaged as an `Env` of
  outcomes: `none` models the corresponding Python helper returning `None`
  after catching an internal exception, exactly as lines 43-205 of
  beauty_ensemble.py do.
* Model handles are opaque `Nat` tags and prepared tensors are opaque `Unit`
  values: the fusion logic never inspects them, only their presence.
* Besides the returned record, the embedding reports the list of external
  operations the call performed (in program order) and the message of any
  exception caught by the function's top-level handler, so that claims about
  "no model work happened" and "the error was a caught exception" are
  expressible.
-/

/-- Outcomes of the external operations used by one ensemble call: the two
cached model getters (lines 61-74), the two preprocessing helpers
(lines 77-160) and the two TFLite predictions (lines 163-205) of
beauty_ensemble.py. A `none` outcome models the Python helper returning
`None` after logging an internal failure. -/
structure Env where
  scut_model : Option Nat
  mebeauty_model : Option Nat
  scut_img : Option Unit
  mebeauty_img : Option Unit
  scut_pred : Option ℚ
  mebeauty_pred : Option ℚ
deriving DecidableEq

/-- The record built by `predict_beauty_ensemble` (the Python `result`
dictionary of lines 220-225). -/
structure PredictionResult where
  ensemble_score : Option ℚ
  scut_score : Option ℚ
  mebeauty_score : Option ℚ
  error : Option String
deriving DecidableEq

/-- The external operations one ensemble call can perform, in the order the
Python function issues them. -/
inductive EnsembleStep where
  | get_scut
  | get_mebeauty
  | preprocess_scut
  | preprocess_mebeauty
  | predict_scut
  | predict_mebeauty
deriving DecidableEq

/-- One completed call of `predict_beauty_ensemble`: the returned record, the
external operations the call performed, and the message of the exception
caught by the function's top-level `except` handler (line 276), when one was
raised. -/
structure EnsembleCall where
  result : PredictionResult
  actions : List EnsembleStep
  caught : Option String
deriving DecidableEq

/-- `isPrefList p h` holds when the character list `p` is an initial segment
of `h`. -/
def isPrefList : List Char → List Char → Bool
  | [], _ => true
  | _ :: _, [] => false
  | p :: ps, h :: hs => p == h && isPrefList ps hs

/-- `containsSub p h` holds when the character list `p` occurs contiguously
inside `h`. -/
def containsSub (pat : List Char) : List Char → Bool
  | [] => isPrefList pat []
  | c :: cs => isPrefList pat (c :: cs) || containsSub pat cs

/-- `mentions m s` holds when the string `m` occurs inside the string `s`
(used to state that a diagnostic names a particular model). -/
def mentions (m s : String) : Bool := containsSub m.data s.data

/-- Lines 234-274 of beauty_ensemble.py: the body of
`predict_beauty_ensemble` after weight adjustment, where `sw` and `mw` are
the already-adjusted weights. Handle acquisition for both models, then the
joint `None` check (line 238); preprocessing for both models, then the joint
`None` check (line 246); then both predictions and the fusion branch of
lines 259-274. -/
def ensemble_body (env : Env) (sw mw : ℚ) : EnsembleCall :=
  if env.scut_model = none ∨ env.mebeauty_model = none then
    { result := { ensemble_score := none, scut_score := none, mebeauty_score := none,
                  error := some "Failed to load one or both models" },
      actions := [.get_scut, .get_mebeauty], caught := none }
  else if env.scut_img = none ∨ env.mebeauty_img = none then
    { result := { ensemble_score := none, scut_score := none, mebeauty_score := none,
                  error := some "Failed to preprocess image for one or both models" },
      actions := [.get_scut, .get_mebeauty, .preprocess_scut, .preprocess_mebeauty],
      caught := none }
  else
    match env.scut_pred, env.mebeauty_pred with
    | some s, some m =>
      { result := { ensemble_score := some (sw * s + mw * m), scut_score := some s,
                    mebeauty_score := some m, error := none },
        actions := [.get_scut, .get_mebeauty, .preprocess_scut, .preprocess_mebeauty,
                    .predict_scut, .predict_mebeauty],
        caught := none }
    | some s, none =>
      { result := { ensemble_score := some s, scut_score := some s, mebeauty_score := none,
                    error := some "MEBeauty model prediction failed, using only SCUT" },
        actions := [.get_scut, .get_mebeauty, .preprocess_scut, .preprocess_mebeauty,
                    .predict_scut, .predict_mebeauty],
        caught := none }
    | none, some m =>
      { result := { ensemble_score := some m, scut_score := none, mebeauty_score := some m,
                    error := some "SCUT model prediction failed, using only MEBeauty" },
        actions := [.get_scut, .get_mebeauty, .preprocess_scut, .preprocess_mebeauty,
                    .predict_scut, .predict_mebeauty],
        caught := none }
    | none, none =>
      { result := { ensemble_score := none, scut_score := none, mebeauty_score := none,
                    error := some "Both model predictions failed" },
        actions := [.get_scut, .get_mebeauty, .preprocess_scut, .preprocess_mebeauty,
                    .predict_scut, .predict_mebeauty],
        caught := none }

/-- Lines 208-281 of beauty_ensemble.py, `predict_beauty_ensemble`.
Weight adjustment (lines 228-232): when the total differs from 1 each weight
is divided by the total; when the total is 0 that division raises
`ZeroDivisionError` ("float division by zero"), which the function's
top-level handler catches (lines 276-279), producing the generic diagnostic
before any model work has happened. Otherwise the call proceeds with the
adjusted weights. -/
def predict_beauty_ensemble (env : Env) (scut_weight mebeauty_weight : ℚ) : EnsembleCall :=
  if scut_weight + mebeauty_weight = 0 then
    { result := { ensemble_score := none, scut_score := none, mebeauty_score := none,
                  error := some "Error in ensemble prediction: float division by zero" },
      actions := [], caught := some "float division by zero" }
  else
    ensemble_body env
      (if scut_weight + mebeauty_weight = 1 then scut_weight
       else scut_weight / (scut_weight + mebeauty_weight))
      (if scut_weight + mebeauty_weight = 1 then mebeauty_weight
       else mebeauty_weight / (scut_weight + mebeauty_weight))

/-- Lines 61-66 of beauty_ensemble.py, `get_scut_model`, over an explicit
state: `scut_interpreter` is the current value of the module global and
`load_result` is the outcome `load_tflite_model` produces if it is called
(`none` on a load failure, as in lines 43-53). Returns the value the call
returns, the new value of the global, and whether a load was performed. -/
def get_scut_model (scut_interpreter : Option Nat) (load_result : Option Nat) :
    Option Nat × Option Nat × Bool :=
  match scut_interpreter with
  | some h => (some h, some h, false)
  | none => (load_result, load_result, true)

/-- A sequence of `get_scut_model` calls threading the module global, one
load-outcome oracle per call; each entry of the output is the handle that
call returned and whether that call performed a load. -/
def run_gets : Option Nat → List (Option Nat) → List (Option Nat × Bool)
  | _, [] => []
  | s, l :: ls =>
    ((get_scut_model s l).1, (get_scut_model s l).2.2) :: run_gets (get_scut_model s l).2.1 ls

/- Concrete environments used by witnesses and counterexamples. -/

/-- Both models load, both preprocessing steps succeed, SCUT scores 3 and
MEBeauty scores 4. -/
def envAllOk : Env := ⟨some 1, some 2, some (), some (), some 3, some 4⟩

/-- Both models load and preprocess; SCUT scores 2 and the MEBeauty
prediction fails. -/
def envMebPredFail : Env := ⟨some 1, some 2, some (), some (), some 2, none⟩

/-- Both models load and preprocess; both predictions fail. -/
def envBothPredFail : Env := ⟨some 1, some 2, some (), some (), none, none⟩

/-- Both models load; preprocessing for SCUT fails while the MEBeauty
pipeline is fully healthy (its preprocessing succeeds and it would score 4). -/
def envScutPreFail : Env := ⟨some 1, some 2, none, some (), none, some 4⟩

/-- The SCUT handle fails to load; everything else would succeed. -/
def envScutLoadFail : Env := ⟨none, some 2, some (), some (), some 3, some 4⟩

/-- On the success path the fused score is the weighted sum of the two model
scores under the normalized weights, for any nonzero total weight (shared
computation lemma for the fusion theorems). -/
lemma ensemble_score_both (env : Env) (a b s m : ℚ) (nscut nmeb : Nat)
    (htot : a + b ≠ 0)
    (hm1 : env.scut_model = some nscut) (hm2 : env.mebeauty_model = some nmeb)
    (hi1 : env.scut_img = some ()) (hi2 : env.mebeauty_img = some ())
    (hp1 : env.scut_pred = some s) (hp2 : env.mebeauty_pred = some m) :
    (predict_beauty_ensemble env a b).result.ensemble_score
      = some (a / (a + b) * s + b / (a + b) * m) := by
  unfold predict_beauty_ensemble ensemble_body
  rw [if_neg htot]
  rw [if_neg (by simp [hm1, hm2]), if_neg (by simp [hi1, hi2]), hp1, hp2]
  by_cases h1 : a + b = 1
  · simp [h1]
  · simp only [if_neg h1]

/-- C1: when both models return a score and the total weight is nonzero, the
fused score is the weighted sum of the per-model scores under the normalized
weights: fused = (a/(a+b))*scut_score + (b/(a+b))*mebeauty_score. -/
theorem c1_fused_is_weighted_sum (env : Env) (a b s m : ℚ) (nscut nmeb : Nat)
    (htot : a + b ≠ 0)
    (hm1 : env.scut_model = some nscut) (hm2 : env.mebeauty_model = some nmeb)
    (hi1 : env.scut_img = some ()) (hi2 : env.mebeauty_img = some ())
    (hp1 : env.scut_pred = some s) (hp2 : env.mebeauty_pred = some m) :
    (predict_beauty_ensemble env a b).result.ensemble_score
      = some (a / (a + b) * s + b / (a + b) * m) :=
  ensemble_score_both env a b s m nscut nmeb htot hm1 hm2 hi1 hi2 hp1 hp2

/-- C1 witness: weights (1/2, 1/2), SCUT score 3, MEBeauty score 4 fuse
to 7/2. -/
theorem c1_fused_is_weighted_sum_witness :
    (predict_beauty_ensemble envAllOk (1/2) (1/2)).result.ensemble_score = some (7/2) := by
  have h := c1_fused_is_weighted_sum envAllOk (1/2) (1/2) 3 4 1 2 (by norm_num)
    rfl rfl rfl rfl rfl rfl
  rw [h]
  norm_num

/-- C2: with a nonzero total weight, when exactly one model's prediction
succeeds with score s and the other fails, the fused score equals s no matter
the weights, and the diagnostic names the failed model. -/
theorem c2_single_model_degradation (env : Env) (a b s : ℚ) (nscut nmeb : Nat)
    (htot : a + b ≠ 0)
    (hm1 : env.scut_model = some nscut) (hm2 : env.mebeauty_model = some nmeb)
    (hi1 : env.scut_img = some ()) (hi2 : env.mebeauty_img = some ()) :
    (env.scut_pred = some s → env.mebeauty_pred = none →
      (predict_beauty_ensemble env a b).result.ensemble_score = some s
      ∧ (predict_beauty_ensemble env a b).result.error
          = some "MEBeauty model prediction failed, using only SCUT"
      ∧ mentions "MEBeauty" "MEBeauty model prediction failed, using only SCUT" = true)
    ∧ (env.mebeauty_pred = some s → env.scut_pred = none →
      (predict_beauty_ensemble env a b).result.ensemble_score = some s
      ∧ (predict_beauty_ensemble env a b).result.error
          = some "SCUT model prediction failed, using only MEBeauty"
      ∧ mentions "SCUT" "SCUT model prediction failed, using only MEBeauty" = true) := by
  constructor
  · intro hp1 hp2
    unfold predict_beauty_ensemble ensemble_body
    rw [if_neg htot, if_neg (by simp [hm1, hm2]), if_neg (by simp [hi1, hi2]), hp1, hp2]
    exact ⟨rfl, rfl, by decide⟩
  · intro hp2 hp1
    unfold predict_beauty_ensemble ensemble_body
    rw [if_neg htot, if_neg (by simp [hm1, hm2]), if_neg (by simp [hi1, hi2]), hp1, hp2]
    exact ⟨rfl, rfl, by decide⟩

/-- C2 witness: weights (3/10, 7/10), SCUT scores 2, MEBeauty fails: the
fused score is 2 and the diagnostic mentions MEBeauty. -/
theorem c2_single_model_degradation_witness :
    (predict_beauty_ensemble envMebPredFail (3/10) (7/10)).result.ensemble_score = some 2
    ∧ (predict_beauty_ensemble envMebPredFail (3/10) (7/10)).result.error
        = some "MEBeauty model prediction failed, using only SCUT"
    ∧ mentions "MEBeauty" "MEBeauty model prediction failed, using only SCUT" = true :=
  (c2_single_model_degradation envMebPredFail (3/10) (7/10) 2 1 2 (by norm_num)
    rfl rfl rfl rfl).1 rfl rfl

/-- C3: when both predictions fail (and the call reaches the prediction
stage), the fused score is absent, the diagnostic says both models failed,
and the structured record is returned with no exception reaching even the
function's own top-level handler. -/
theorem c3_total_failure_structured (env : Env) (a b : ℚ) (nscut nmeb : Nat)
    (htot : a + b ≠ 0)
    (hm1 : env.scut_model = some nscut) (hm2 : env.mebeauty_model = some nmeb)
    (hi1 : env.scut_img = some ()) (hi2 : env.mebeauty_img = some ())
    (hp1 : env.scut_pred = none) (hp2 : env.mebeauty_pred = none) :
    (predict_beauty_ensemble env a b).result.ensemble_score = none
    ∧ (predict_beauty_ensemble env a b).result.error = some "Both model predictions failed"
    ∧ (predict_beauty_ensemble env a b).caught = none := by
  unfold predict_beauty_ensemble ensemble_body
  rw [if_neg htot, if_neg (by simp [hm1, hm2]), if_neg (by simp [hi1, hi2]), hp1, hp2]
  exact ⟨rfl, rfl, rfl⟩

/-- C3 witness: both predictions fail at weights (1/2, 1/2). -/
theorem c3_total_failure_structured_witness :
    (predict_beauty_ensemble envBothPredFail (1/2) (1/2)).result.ensemble_score = none
    ∧ (predict_beauty_ensemble envBothPredFail (1/2) (1/2)).result.error
        = some "Both model predictions failed"
    ∧ (predict_beauty_ensemble envBothPredFail (1/2) (1/2)).caught = none :=
  c3_total_failure_structured envBothPredFail (1/2) (1/2) 1 2 (by norm_num)
    rfl rfl rfl rfl rfl rfl

/-- C4: for positive weights (a, b), calling with (a, b) and with the
pre-normalized weights (a/(a+b), b/(a+b)) produce identical calls — in
particular identical fused scores — for any identical per-model outcomes. -/
theorem c4_prenormalized_weights_agree (env : Env) (a b : ℚ) (ha : 0 < a) (hb : 0 < b) :
    predict_beauty_ensemble env a b
      = predict_beauty_ensemble env (a / (a + b)) (b / (a + b)) := by
  have hab : (0:ℚ) < a + b := by linarith
  have hab' : a + b ≠ 0 := ne_of_gt hab
  have hsum : a / (a + b) + b / (a + b) = 1 := by field_simp
  unfold predict_beauty_ensemble
  rw [hsum, if_neg hab']
  have h10 : ¬((1:ℚ) = 0) := one_ne_zero
  have h11 : (1:ℚ) = 1 := rfl
  rw [if_neg h10, if_pos h11, if_pos h11]
  by_cases h1 : a + b = 1
  · simp [h1]
  · simp only [if_neg h1]

/-- C4 witness: weights (1, 3) and (1/(1+3), 3/(1+3)) give the same call. -/
theorem c4_prenormalized_weights_agree_witness :
    predict_beauty_ensemble envAllOk 1 3
      = predict_beauty_ensemble envAllOk (1 / (1 + 3)) (3 / (1 + 3)) :=
  c4_prenormalized_weights_agree envAllOk 1 3 (by norm_num) (by norm_num)

/-- C5 counterexample: calling with both weights zero, the zero-sum division
IS discovered — the normalization divides by the zero total, Python raises
ZeroDivisionError, and the function's top-level handler converts it into the
generic caught-exception diagnostic. There is no weight-validation rejection
distinct from the caught exception. -/
theorem c5_zero_weights_counterexample :
    (predict_beauty_ensemble envAllOk 0 0).caught = some "float division by zero"
    ∧ (predict_beauty_ensemble envAllOk 0 0).result.error
        = some "Error in ensemble prediction: float division by zero" := by
  have h : predict_beauty_ensemble envAllOk 0 0 =
      { result := { ensemble_score := none, scut_score := none, mebeauty_score := none,
                    error := some "Error in ensemble prediction: float division by zero" },
        actions := [], caught := some "float division by zero" } := by
    unfold predict_beauty_ensemble
    norm_num
  rw [h]
  exact ⟨rfl, rfl⟩

/-- C5 (amended): with both weights zero the call fails during weight
normalization, before any model work: the ZeroDivisionError raised by the
zero-sum division is caught by the top-level handler, the returned record
carries the generic diagnostic and no scores, and no handle acquisition,
preprocessing or prediction step is performed. -/
theorem c5_zero_weights_amended (env : Env) :
    predict_beauty_ensemble env 0 0 =
      { result := { ensemble_score := none, scut_score := none, mebeauty_score := none,
                    error := some "Error in ensemble prediction: float division by zero" },
        actions := [], caught := some "float division by zero" } := by
  unfold predict_beauty_ensemble
  norm_num

/-- C6: for a successful dual-model fusion with non-negative weights of
positive total, the fused score lies between the two model scores, and hence
within the 1-5 output scale whenever both model scores do. -/
theorem c6_convex_bounds (env : Env) (a b s m : ℚ) (nscut nmeb : Nat)
    (ha : 0 ≤ a) (hb : 0 ≤ b) (hab : 0 < a + b)
    (hm1 : env.scut_model = some nscut) (hm2 : env.mebeauty_model = some nmeb)
    (hi1 : env.scut_img = some ()) (hi2 : env.mebeauty_img = some ())
    (hp1 : env.scut_pred = some s) (hp2 : env.mebeauty_pred = some m) :
    ∃ f, (predict_beauty_ensemble env a b).result.ensemble_score = some f
      ∧ min s m ≤ f ∧ f ≤ max s m
      ∧ (1 ≤ s → s ≤ 5 → 1 ≤ m → m ≤ 5 → 1 ≤ f ∧ f ≤ 5) := by
  have htot : a + b ≠ 0 := ne_of_gt hab
  have hu : 0 ≤ a / (a + b) := div_nonneg ha hab.le
  have hv : 0 ≤ b / (a + b) := div_nonneg hb hab.le
  have hsum : a / (a + b) + b / (a + b) = 1 := by field_simp
  have hmin : min s m ≤ a / (a + b) * s + b / (a + b) * m := by
    calc min s m = (a / (a + b) + b / (a + b)) * min s m := by rw [hsum, one_mul]
    _ = a / (a + b) * min s m + b / (a + b) * min s m := by ring
    _ ≤ a / (a + b) * s + b / (a + b) * m :=
        add_le_add (mul_le_mul_of_nonneg_left (min_le_left s m) hu)
          (mul_le_mul_of_nonneg_left (min_le_right s m) hv)
  have hmax : a / (a + b) * s + b / (a + b) * m ≤ max s m := by
    calc a / (a + b) * s + b / (a + b) * m
        ≤ a / (a + b) * max s m + b / (a + b) * max s m :=
          add_le_add (mul_le_mul_of_nonneg_left (le_max_left s m) hu)
            (mul_le_mul_of_nonneg_left (le_max_right s m) hv)
    _ = (a / (a + b) + b / (a + b)) * max s m := by ring
    _ = max s m := by rw [hsum, one_mul]
  exact ⟨a / (a + b) * s + b / (a + b) * m,
    ensemble_score_both env a b s m nscut nmeb htot hm1 hm2 hi1 hi2 hp1 hp2,
    hmin, hmax,
    fun h1s h5s h1m h5m =>
      ⟨le_trans (le_min h1s h1m) hmin, le_trans hmax (max_le h5s h5m)⟩⟩

/-- C6 witness: weights (1/3, 2/3), scores 3 and 4: the fused score exists
and lies between 3 and 4, hence within the 1-5 scale. -/
theorem c6_convex_bounds_witness :
    ∃ f, (predict_beauty_ensemble envAllOk (1/3) (2/3)).result.ensemble_score = some f
      ∧ min (3:ℚ) 4 ≤ f ∧ f ≤ max (3:ℚ) 4
      ∧ (1 ≤ (3:ℚ) → (3:ℚ) ≤ 5 → 1 ≤ (4:ℚ) → (4:ℚ) ≤ 5 → 1 ≤ f ∧ f ≤ 5) :=
  c6_convex_bounds envAllOk (1/3) (2/3) 3 4 1 2 (by norm_num) (by norm_num) (by norm_num)
    rfl rfl rfl rfl rfl rfl

/-- C7 counterexample: when preprocessing for the SCUT model fails while the
MEBeauty pipeline is fully healthy (its preprocessing succeeded and its
prediction would return 4), the whole call aborts with no fused score and the
joint preprocessing diagnostic — the single-model preprocessing failure is
not tolerated as an abstention. -/
theorem c7_preprocess_failure_counterexample :
    (predict_beauty_ensemble envScutPreFail (1/2) (1/2)).result.ensemble_score = none
    ∧ (predict_beauty_ensemble envScutPreFail (1/2) (1/2)).result.error
        = some "Failed to preprocess image for one or both models"
    ∧ envScutPreFail.mebeauty_img = some () ∧ envScutPreFail.mebeauty_pred = some 4 := by
  have h : predict_beauty_ensemble envScutPreFail (1/2) (1/2) =
      { result := { ensemble_score := none, scut_score := none, mebeauty_score := none,
                    error := some "Failed to preprocess image for one or both models" },
        actions := [.get_scut, .get_mebeauty, .preprocess_scut, .preprocess_mebeauty],
        caught := none } := by
    unfold predict_beauty_ensemble ensemble_body
    norm_num [envScutPreFail]
    rintro (h | h) <;> exact Option.noConfusion h
  rw [h]
  exact ⟨rfl, rfl, rfl, rfl⟩

/-- C7 (amended): a failure in one model's prediction stage is tolerated as
that model's abstention — the fused score is the surviving model's score —
but a failure while preprocessing for either model aborts the whole call:
no fused score is produced and the joint preprocessing diagnostic is
returned. -/
theorem c7_per_stage_failure_policy (env : Env) (a b s : ℚ) (nscut nmeb : Nat)
    (htot : a + b ≠ 0)
    (hm1 : env.scut_model = some nscut) (hm2 : env.mebeauty_model = some nmeb) :
    (env.scut_img = some () → env.mebeauty_img = some () →
      env.scut_pred = some s → env.mebeauty_pred = none →
      (predict_beauty_ensemble env a b).result.ensemble_score = some s)
    ∧ (env.scut_img = some () → env.mebeauty_img = some () →
      env.mebeauty_pred = some s → env.scut_pred = none →
      (predict_beauty_ensemble env a b).result.ensemble_score = some s)
    ∧ (env.scut_img = none ∨ env.mebeauty_img = none →
      (predict_beauty_ensemble env a b).result.ensemble_score = none
      ∧ (predict_beauty_ensemble env a b).result.error
          = some "Failed to preprocess image for one or both models") := by
  refine ⟨?_, ?_, ?_⟩
  · intro hi1 hi2 hp1 hp2
    unfold predict_beauty_ensemble ensemble_body
    rw [if_neg htot, if_neg (by simp [hm1, hm2]), if_neg (by simp [hi1, hi2]), hp1, hp2]
  · intro hi1 hi2 hp2 hp1
    unfold predict_beauty_ensemble ensemble_body
    rw [if_neg htot, if_neg (by simp [hm1, hm2]), if_neg (by simp [hi1, hi2]), hp1, hp2]
  · intro hfail
    unfold predict_beauty_ensemble ensemble_body
    rw [if_neg htot, if_neg (by simp [hm1, hm2]), if_pos hfail]
    exact ⟨rfl, rfl⟩

/-- C7 witness (for the amended claim): SCUT preprocessing failure at weights
(2/5, 3/5) aborts the whole call with the preprocessing diagnostic. -/
theorem c7_per_stage_failure_policy_witness :
    (predict_beauty_ensemble envScutPreFail (2/5) (3/5)).result.ensemble_score = none
    ∧ (predict_beauty_ensemble envScutPreFail (2/5) (3/5)).result.error
        = some "Failed to preprocess image for one or both models" :=
  (c7_per_stage_failure_policy envScutPreFail (2/5) (3/5) 0 1 2 (by norm_num)
    rfl rfl).2.2 (Or.inl rfl)

/-- C8: if either model handle fails to load (with a nonzero total weight so
normalization succeeds), the whole call fails: every score is absent, the
load-failure diagnostic is returned, and no preprocessing or prediction step
is attempted — no partial fusion from the model that did load. -/
theorem c8_load_failure_aborts (env : Env) (a b : ℚ) (htot : a + b ≠ 0)
    (hfail : env.scut_model = none ∨ env.mebeauty_model = none) :
    (predict_beauty_ensemble env a b).result =
      { ensemble_score := none, scut_score := none, mebeauty_score := none,
        error := some "Failed to load one or both models" }
    ∧ (predict_beauty_ensemble env a b).actions = [.get_scut, .get_mebeauty] := by
  unfold predict_beauty_ensemble ensemble_body
  rw [if_neg htot, if_pos hfail]
  exact ⟨rfl, rfl⟩

/-- C8 witness: the SCUT handle fails to load at weights (1/2, 1/2). -/
theorem c8_load_failure_aborts_witness :
    (predict_beauty_ensemble envScutLoadFail (1/2) (1/2)).result =
      { ensemble_score := none, scut_score := none, mebeauty_score := none,
        error := some "Failed to load one or both models" }
    ∧ (predict_beauty_ensemble envScutLoadFail (1/2) (1/2)).actions
        = [.get_scut, .get_mebeauty] :=
  c8_load_failure_aborts envScutLoadFail (1/2) (1/2) (by norm_num) (Or.inl rfl)

/-- C9: the cache memoizes only successful loads: a first call whose load
succeeds stores the handle and every later call returns that same handle
without performing another load; a call whose load fails leaves the slot
empty, and any call finding the slot empty performs the load, so the call
after a failure retries. -/
theorem c9_cache_memoizes_success_only (h : Nat) (loads : List (Option Nat)) (l : Option Nat) :
    get_scut_model none (some h) = (some h, some h, true)
    ∧ run_gets (some h) loads = loads.map (fun _ => (some h, false))
    ∧ get_scut_model none none = (none, none, true)
    ∧ (get_scut_model none l).2.2 = true := by
  refine ⟨rfl, ?_, rfl, rfl⟩
  induction loads with
  | nil => rfl
  | cons x xs ih => simpa [run_gets, get_scut_model] using ih
